import Mathlib

/-
Verification of the clock-domain derivation and peripheral-composition logic
of `litex_boards/targets/litex_acorn_baseboard_mini.py`.

The source is a single Python target script. Its core pieces, shallowly
embedded here:
  * `CRG.__init__` (lines 48-72): requests the differential 200 MHz board
    clock, buffers it to a single-ended signal `clk200_se`, feeds an S7PLL
    (reset driven by `self.rst`) and creates the clock domains
    sys / sys4x / sys4x_dqs from PLL outputs plus an idelay domain driven
    directly by `clk200_se`.
  * `BaseSoC.__init__` (lines 76-146): always builds the CRG first, then
    conditionally instantiates DDR3 memory (iff no integrated main RAM),
    the Ethernet/Etherbone PHY and bridge, and the LED chaser, in that
    textual order, with no validation or failure path of its own.
  * `main` (lines 150-184): dispatches build / load / flash from argument
    flags, each guarded only by its own flag.
-/

namespace AcornMini

/-- Signals appearing in the CRG (source lines 50-71): the generator reset
`self.rst`, the single-ended buffered reference clock `clk200_se` produced by
the `DifferentialInput` instance from the `clk200` board pins, and the PLL
outputs created by `pll.create_clkout` with a frequency (Hz) and phase
(degrees). -/
inductive CrgSig where
  | rst
  | clk200se
  | pllClkout (freqHz : Nat) (phase : Nat)
  deriving DecidableEq, Repr

/-- A clock domain as constructed by the CRG: its name, the frequency (Hz)
and phase (degrees) it is constrained to, and the signal driving its clock. -/
structure CRGDomain where
  name : String
  freqHz : Nat
  phase : Nat
  source : CrgSig
  deriving DecidableEq, Repr

namespace CRG

/-- Reference clock frequency registered into the PLL:
`pll.register_clkin(clk200_se, 200e6)` (source line 64). -/
def refClkFreqHz : Nat := 200000000

/-- The PLL reset wiring: `self.comb += pll.reset.eq(self.rst)`
(source line 63). -/
def pllResetSrc : CrgSig := CrgSig.rst

/-- The PLL output clocks requested by `pll.create_clkout`
(source lines 65-67): `sys_clk_freq` at phase 0, `4*sys_clk_freq` at phase 0,
and `4*sys_clk_freq` at phase 90. -/
def pllOutputs (sysClkFreqHz : Nat) : List CrgSig :=
  [ CrgSig.pllClkout sysClkFreqHz 0,
    CrgSig.pllClkout (4 * sysClkFreqHz) 0,
    CrgSig.pllClkout (4 * sysClkFreqHz) 90 ]

/-- The clock domains constructed by `CRG.__init__` (source lines 51-54 and
65-71): `cd_sys`, `cd_sys4x`, `cd_sys4x_dqs` are driven by the three PLL
outputs; `cd_idelay` is driven directly by `clk200_se`
(`self.comb += self.cd_idelay.clk.eq(clk200_se)`, line 71), i.e. by the
post-input-buffer raw reference running at 200 MHz. -/
def init (sysClkFreqHz : Nat) : List CRGDomain :=
  [ { name := "sys", freqHz := sysClkFreqHz, phase := 0,
      source := CrgSig.pllClkout sysClkFreqHz 0 },
    { name := "sys4x", freqHz := 4 * sysClkFreqHz, phase := 0,
      source := CrgSig.pllClkout (4 * sysClkFreqHz) 0 },
    { name := "sys4x_dqs", freqHz := 4 * sysClkFreqHz, phase := 90,
      source := CrgSig.pllClkout (4 * sysClkFreqHz) 90 },
    { name := "idelay", freqHz := refClkFreqHz, phase := 0,
      source := CrgSig.clk200se } ]

end CRG

/-- Find the domain of a given name in a CRG domain list. -/
def domainNamed (ds : List CRGDomain) (n : String) : Option CRGDomain :=
  ds.find? (fun d => d.name == n)

/-- The clock source driving the named domain of `CRG.init f`. -/
def CRG.clkSourceOf (f : Nat) (n : String) : Option CrgSig :=
  (domainNamed (CRG.init f) n).map CRGDomain.source

/-- Whether a CRG signal is toggling, given the generator reset state and
whether the board reference clock is running. Modelled from the spec for the
external S7PLL primitive (a black box outside src/): asserting the PLL reset
holds every PLL-derived clock deasserted, while `clk200_se` is the plain
output of an input buffer and follows the reference clock unconditionally. -/
def CrgSig.running (rstAsserted refRunning : Bool) : CrgSig → Bool
  | CrgSig.rst => rstAsserted
  | CrgSig.clk200se => refRunning
  | CrgSig.pllClkout _ _ => !rstAsserted && refRunning

/-- The configuration surface of `BaseSoC.__init__` (source lines 77-84):
its keyword parameters, plus `integrated_main_ram_size`, the SoCCore kwarg
that decides the DDR3 branch (`if not self.integrated_main_ram_size`,
line 95). -/
structure SoCConfig where
  variant : String
  sysClkFreqHz : Nat
  withEthernet : Bool
  withEtherbone : Bool
  ethIp : String
  remoteIp : Option String
  ethDynamicIp : Bool
  withLedChaser : Bool
  integratedMainRamSize : Nat
  deriving DecidableEq, Repr

/-- The three conditionally instantiated peripherals of `BaseSoC.__init__`:
memory (`A7DDRPHY` + `add_sdram`, lines 95-104), network (QPLL +
`A7_1000BASEX` PHY with a protocol bridge, lines 107-140), and status
(`LedChaser`, lines 143-146). -/
inductive Peripheral where
  | memory
  | network
  | status
  deriving DecidableEq, Repr

/-- Instantiation order rank of each peripheral in the source text. -/
def Peripheral.orderIndex : Peripheral → Nat
  | Peripheral.memory => 0
  | Peripheral.network => 1
  | Peripheral.status => 2

/-- Clock domains each instantiated peripheral is wired against in the
source: the memory path instantiates `A7DDRPHY` with `nphases=4`, which runs
in sys/sys4x/sys4x_dqs and relies on the idelay calibration domain; the
network path feeds the QPLL from `ClockSignal("sys")` (line 124); the
LedChaser runs in the default sys domain (lines 144-146). -/
def Peripheral.requiredDomains : Peripheral → List String
  | Peripheral.memory => ["sys", "sys4x", "sys4x_dqs", "idelay"]
  | Peripheral.network => ["sys"]
  | Peripheral.status => ["sys"]

/-- The ordered list of peripherals instantiated by `BaseSoC.__init__`
(source lines 94-146): memory iff `integrated_main_ram_size` is zero,
network iff `with_ethernet or with_etherbone`, status iff
`with_led_chaser`. -/
def BaseSoC.peripherals (cfg : SoCConfig) : List Peripheral :=
  (if cfg.integratedMainRamSize = 0 then [Peripheral.memory] else []) ++
  (if cfg.withEthernet || cfg.withEtherbone then [Peripheral.network] else []) ++
  (if cfg.withLedChaser then [Peripheral.status] else [])

/-- Which protocol bridge is attached to the Ethernet PHY:
`if with_etherbone: self.add_etherbone(..., with_ethmac=with_ethernet)`
`elif with_ethernet: self.add_ethernet(...)` (source lines 137-140). -/
inductive EthBridge where
  | noBridge
  | etherboneBridge (withEthmac : Bool)
  | ethernetBridge
  deriving DecidableEq, Repr

/-- The bridge attachment performed by `BaseSoC.__init__`: the whole network
section is guarded by `if with_ethernet or with_etherbone` (line 107), inside
which the etherbone/ethernet dispatch is an if/elif chain (lines 137-140). -/
def BaseSoC.ethBridge (cfg : SoCConfig) : EthBridge :=
  if cfg.withEthernet || cfg.withEtherbone then
    if cfg.withEtherbone then EthBridge.etherboneBridge cfg.withEthernet
    else if cfg.withEthernet then EthBridge.ethernetBridge
    else EthBridge.noBridge
  else EthBridge.noBridge

/-- How many `A7_1000BASEX` PHY instances `BaseSoC.__init__` creates: exactly
one inside the `if with_ethernet or with_etherbone` block (lines 128-134),
none otherwise. -/
def BaseSoC.ethPhyCount (cfg : SoCConfig) : Nat :=
  if cfg.withEthernet || cfg.withEtherbone then 1 else 0

/-- True when the run attaches the Etherbone bridge. -/
def BaseSoC.attachesEtherbone (cfg : SoCConfig) : Bool :=
  match BaseSoC.ethBridge cfg with
  | EthBridge.etherboneBridge _ => true
  | _ => false

/-- True when the run attaches the Ethernet (MAC) bridge via `add_ethernet`. -/
def BaseSoC.attachesEthernet (cfg : SoCConfig) : Bool :=
  BaseSoC.ethBridge cfg == EthBridge.ethernetBridge

/-- Errors from the spec's error taxonomy (section 7). Modelled from the
spec: none of these exception types exist anywhere in src/; the inductive is
needed only to state claims about them against the code's actual (error-free)
control flow. -/
inductive AssembleError where
  | unsatisfiedClockDependency (intent : String) (domain : String)
  | unsupportedFeatureForVariant (variant : String)
  deriving DecidableEq, Repr

/-- The peripheral-instantiation portion of `BaseSoC.__init__` (source lines
94-146) viewed as a function of the CRG domain list it runs against. The
source never consults the domain list for validation and has no failure
path: it unconditionally instantiates the peripherals selected by the
configuration. -/
def BaseSoC.assemble (crgDomains : List CRGDomain) (cfg : SoCConfig) :
    Except AssembleError (List Peripheral) :=
  Except.ok (BaseSoC.peripherals cfg)

/-- Elaboration-time events of `BaseSoC.__init__`, in source order. -/
inductive SoCEvent where
  | crgCreated
  | socCoreInit
  | memoryAdded
  | sfpIoAdded
  | ethPhyAdded
  | etherboneAdded (withEthmac : Bool)
  | ethernetAdded
  | ledsAdded
  deriving DecidableEq, Repr

/-- The event trace of `BaseSoC.__init__` (source lines 85-146): the CRG is
built first (line 89), then SoCCore init (line 92), then DDR3 iff no
integrated RAM (lines 95-104), then — iff Ethernet or Etherbone is requested —
the SFP pin extension is added by the target itself (line 116), the PHY is
created (lines 128-134) and one bridge attached (lines 137-140), then the LED
chaser (lines 143-146). There is no variant capability check anywhere. -/
def BaseSoC.initTrace (cfg : SoCConfig) : List SoCEvent :=
  [SoCEvent.crgCreated, SoCEvent.socCoreInit] ++
  (if cfg.integratedMainRamSize = 0 then [SoCEvent.memoryAdded] else []) ++
  (if cfg.withEthernet || cfg.withEtherbone then
      [SoCEvent.sfpIoAdded, SoCEvent.ethPhyAdded] ++
      (if cfg.withEtherbone then [SoCEvent.etherboneAdded cfg.withEthernet]
       else if cfg.withEthernet then [SoCEvent.ethernetAdded] else [])
    else []) ++
  (if cfg.withLedChaser then [SoCEvent.ledsAdded] else [])

/-- `BaseSoC.__init__` as a fallible computation: the source has no failure
path of its own, so construction always succeeds with the event trace. -/
def BaseSoC.runInit (cfg : SoCConfig) : Except AssembleError (List SoCEvent) :=
  Except.ok (BaseSoC.initTrace cfg)

/-- The action flags consumed by `main` (source lines 153-184). -/
structure MainArgs where
  build : Bool
  load : Bool
  flash : Bool
  deriving DecidableEq, Repr

/-- Terminal actions of `main`: `builder.build(...)` (line 176),
`prog.load_bitstream(builder.get_bitstream_filename(mode="sram"))`
(line 180), and `prog.flash(0, builder.get_bitstream_filename(mode="flash"))`
(line 184). The latter two access the bitstream artifact, identified here by
the filename mode passed to `get_bitstream_filename`. -/
inductive MainAction where
  | builderBuild
  | loadBitstream (mode : String)
  | flashBitstream (mode : String)
  deriving DecidableEq, Repr

/-- The actions performed by `main` (source lines 174-184): each is guarded
only by its own argument flag, in the order build, load, flash. -/
def mainActions (a : MainArgs) : List MainAction :=
  (if a.build then [MainAction.builderBuild] else []) ++
  (if a.load then [MainAction.loadBitstream "sram"] else []) ++
  (if a.flash then [MainAction.flashBitstream "flash"] else [])

-- Theorems ------------------------------------------------------------------

/-- C1: for every target system frequency accepted by the synthesis primitive
(positivity standing in for PLL realizability, which is decided by the
external S7PLL black box), the CRG's clock plan has pairwise distinct domain
names, a `sys` domain at exactly the target frequency with phase 0, and two
additional domains at 4x the system frequency differing only in phase:
`sys4x` at phase 0 and `sys4x_dqs` at phase 90. -/
theorem crg_clock_plan (f : Nat) (hf : 0 < f) :
    ((CRG.init f).map CRGDomain.name).Nodup
    ∧ domainNamed (CRG.init f) "sys" =
        some { name := "sys", freqHz := f, phase := 0,
               source := CrgSig.pllClkout f 0 }
    ∧ domainNamed (CRG.init f) "sys4x" =
        some { name := "sys4x", freqHz := 4 * f, phase := 0,
               source := CrgSig.pllClkout (4 * f) 0 }
    ∧ domainNamed (CRG.init f) "sys4x_dqs" =
        some { name := "sys4x_dqs", freqHz := 4 * f, phase := 90,
               source := CrgSig.pllClkout (4 * f) 90 } := by
  refine ⟨?_, ?_, ?_, ?_⟩ <;> simp [CRG.init, domainNamed, List.find?]

/-- C1 witness: the concrete scenario — reference 200 MHz, target 156.25 MHz —
yields sys at 156.25 MHz phase 0, sys4x at 625 MHz phase 0 and sys4x_dqs at
625 MHz phase 90, with distinct names. -/
theorem crg_clock_plan_witness :
    ((CRG.init 156250000).map CRGDomain.name).Nodup
    ∧ domainNamed (CRG.init 156250000) "sys" =
        some { name := "sys", freqHz := 156250000, phase := 0,
               source := CrgSig.pllClkout 156250000 0 }
    ∧ domainNamed (CRG.init 156250000) "sys4x" =
        some { name := "sys4x", freqHz := 625000000, phase := 0,
               source := CrgSig.pllClkout 625000000 0 }
    ∧ domainNamed (CRG.init 156250000) "sys4x_dqs" =
        some { name := "sys4x_dqs", freqHz := 625000000, phase := 90,
               source := CrgSig.pllClkout 625000000 90 } :=
  crg_clock_plan 156250000 (by decide)

/-- C5: for every constructed CRG, the idelay domain is driven directly by
the raw single-ended post-input-buffer reference clock `clk200_se` and its
source is not among the PLL outputs of the synthesized plan, so it is
independent of PLL lock state. -/
theorem idelay_from_raw_reference (f : Nat) :
    CRG.clkSourceOf f "idelay" = some CrgSig.clk200se
    ∧ CrgSig.clk200se ∉ CRG.pllOutputs f
    ∧ ∀ s ∈ CRG.pllOutputs f, CRG.clkSourceOf f "idelay" ≠ some s := by
  refine ⟨?_, ?_, ?_⟩
  · simp [CRG.clkSourceOf, domainNamed, CRG.init, List.find?]
  · simp [CRG.pllOutputs]
  · intro s hs
    simp [CRG.clkSourceOf, domainNamed, CRG.init, List.find?]
    simp [CRG.pllOutputs] at hs
    rcases hs with h | h | h <;> simp [h]

/-- C5 witness: at the concrete 156.25 MHz target, the idelay source is the
raw reference and differs from every PLL output. -/
theorem idelay_from_raw_reference_witness :
    CRG.clkSourceOf 156250000 "idelay" = some CrgSig.clk200se
    ∧ CrgSig.clk200se ∉ CRG.pllOutputs 156250000 :=
  ⟨(idelay_from_raw_reference 156250000).1,
   (idelay_from_raw_reference 156250000).2.1⟩

/-- C9: the CRG creates exactly the four domains sys, sys4x, sys4x_dqs and
idelay for every target frequency, and every BaseSoC construction — whatever
the configuration, memory instantiated or not — builds the CRG. -/
theorem crg_four_domains_unconditional (f : Nat) (cfg : SoCConfig) :
    (CRG.init f).map CRGDomain.name = ["sys", "sys4x", "sys4x_dqs", "idelay"]
    ∧ (CRG.init f).length = 4
    ∧ (BaseSoC.initTrace cfg).head? = some SoCEvent.crgCreated := by
  refine ⟨?_, ?_, ?_⟩
  · simp [CRG.init]
  · simp [CRG.init]
  · simp [BaseSoC.initTrace]

/-- C10: the generator reset line drives only the PLL reset; under reset the
PLL-derived domains (sys, sys4x, sys4x_dqs) stop while the idelay domain's
clock keeps following the raw reference clock, unaffected by the reset
line. -/
theorem reset_scope (f : Nat) (refRunning : Bool) :
    CRG.pllResetSrc = CrgSig.rst
    ∧ (CRG.clkSourceOf f "idelay").map (CrgSig.running true refRunning) =
        some refRunning
    ∧ (CRG.clkSourceOf f "idelay").map (CrgSig.running false refRunning) =
        some refRunning
    ∧ (CRG.clkSourceOf f "sys").map (CrgSig.running true refRunning) =
        some false
    ∧ (CRG.clkSourceOf f "sys4x").map (CrgSig.running true refRunning) =
        some false
    ∧ (CRG.clkSourceOf f "sys4x_dqs").map (CrgSig.running true refRunning) =
        some false := by
  refine ⟨rfl, ?_, ?_, ?_, ?_, ?_⟩ <;>
    simp [CRG.clkSourceOf, domainNamed, CRG.init, List.find?, CrgSig.running]

/-- C3: the Ethernet and Etherbone protocol bridges are never both attached
in one construction, and whenever either is requested the underlying
`A7_1000BASEX` PHY is instantiated exactly once. -/
theorem eth_bridges_mutually_exclusive (cfg : SoCConfig) :
    ¬(BaseSoC.attachesEtherbone cfg = true ∧ BaseSoC.attachesEthernet cfg = true)
    ∧ (BaseSoC.attachesEtherbone cfg = true ∨ BaseSoC.attachesEthernet cfg = true →
        BaseSoC.ethPhyCount cfg = 1) := by
  unfold BaseSoC.attachesEtherbone BaseSoC.attachesEthernet BaseSoC.ethBridge
    BaseSoC.ethPhyCount
  rcases h1 : cfg.withEthernet <;> rcases h2 : cfg.withEtherbone <;> simp

/-- C3 witness: with Ethernet requested and Etherbone not, the Ethernet
bridge is attached, the Etherbone bridge is not, and the PHY count is one. -/
theorem eth_bridges_mutually_exclusive_witness :
    BaseSoC.ethPhyCount
      { variant := "cle-215+", sysClkFreqHz := 156250000,
        withEthernet := true, withEtherbone := false,
        ethIp := "192.168.1.50", remoteIp := none, ethDynamicIp := false,
        withLedChaser := true, integratedMainRamSize := 0 } = 1 :=
  (eth_bridges_mutually_exclusive
    { variant := "cle-215+", sysClkFreqHz := 156250000,
      withEthernet := true, withEtherbone := false,
      ethIp := "192.168.1.50", remoteIp := none, ethDynamicIp := false,
      withLedChaser := true, integratedMainRamSize := 0 }).2
    (Or.inr (by decide))

/-- C7: the memory peripheral (DDR PHY plus SDRAM controller) is instantiated
iff the integrated main RAM size is zero — the single field that is both the
report of pre-existing integrated memory and the caller's means of
suppressing DDR3 (`if not self.integrated_main_ram_size`, source line 95). -/
theorem memory_iff_no_integrated_ram (cfg : SoCConfig) :
    Peripheral.memory ∈ BaseSoC.peripherals cfg ↔
      cfg.integratedMainRamSize = 0 := by
  unfold BaseSoC.peripherals
  rcases h1 : cfg.withEthernet <;> rcases h2 : cfg.withEtherbone <;>
    rcases h3 : cfg.withLedChaser <;>
    rcases h4 : decide (cfg.integratedMainRamSize = 0) <;>
    simp_all

/-- C8: peripherals are instantiated strictly in the order memory, network,
status: for every configuration the instantiation list is a sublist of
[memory, network, status] and is strictly increasing in that order. -/
theorem peripherals_strictly_ordered (cfg : SoCConfig) :
    (BaseSoC.peripherals cfg).Pairwise
        (fun p q => p.orderIndex < q.orderIndex)
    ∧ List.Sublist (BaseSoC.peripherals cfg)
        [Peripheral.memory, Peripheral.network, Peripheral.status] := by
  constructor <;>
    unfold BaseSoC.peripherals <;>
    rcases h1 : cfg.withEthernet <;> rcases h2 : cfg.withEtherbone <;>
    rcases h3 : cfg.withLedChaser <;>
    rcases h4 : decide (cfg.integratedMainRamSize = 0) <;>
    simp_all [Peripheral.orderIndex]

/-- C2 counterexample: assembling against a clock plan from which the sys
domain has been removed, with a non-empty peripheral list, does not raise
`UnsatisfiedClockDependency` (or anything else): the source performs no
domain-existence check and succeeds unconditionally. -/
theorem assemble_no_domain_check_counterexample :
    domainNamed ((CRG.init 156250000).filter (fun d => d.name != "sys"))
        "sys" = none
    ∧ BaseSoC.assemble
        ((CRG.init 156250000).filter (fun d => d.name != "sys"))
        { variant := "cle-215+", sysClkFreqHz := 156250000,
          withEthernet := false, withEtherbone := false,
          ethIp := "192.168.1.50", remoteIp := none, ethDynamicIp := false,
          withLedChaser := true, integratedMainRamSize := 0 }
      = Except.ok [Peripheral.memory, Peripheral.status]
    ∧ BaseSoC.peripherals
        { variant := "cle-215+", sysClkFreqHz := 156250000,
          withEthernet := false, withEtherbone := false,
          ethIp := "192.168.1.50", remoteIp := none, ethDynamicIp := false,
          withLedChaser := true, integratedMainRamSize := 0 } ≠ [] := by
  refine ⟨by decide, by rfl, by decide⟩

/-- C2 amended: the assembler performs no clock-domain verification at all —
it succeeds for every domain list, including ones missing required domains —
but every domain required by each peripheral it instantiates does exist in
the domain set the CRG actually builds, so no peripheral is ever wired to an
absent domain in practice. -/
theorem assemble_unchecked_but_domains_present (ds : List CRGDomain)
    (cfg : SoCConfig) :
    BaseSoC.assemble ds cfg = Except.ok (BaseSoC.peripherals cfg)
    ∧ ∀ p ∈ BaseSoC.peripherals cfg, ∀ n ∈ p.requiredDomains,
        n ∈ (CRG.init cfg.sysClkFreqHz).map CRGDomain.name := by
  refine ⟨rfl, ?_⟩
  intro p hp n hn
  have hnames : (CRG.init cfg.sysClkFreqHz).map CRGDomain.name
      = ["sys", "sys4x", "sys4x_dqs", "idelay"] := by simp [CRG.init]
  rw [hnames]
  cases p <;> simp_all [Peripheral.requiredDomains]

/-- C2 amended witness: at a concrete config with memory, network and status
all selected, the memory peripheral's sys4x_dqs requirement is found in the
CRG's domain set. -/
theorem assemble_unchecked_witness :
    "sys4x_dqs" ∈ (CRG.init 156250000).map CRGDomain.name :=
  (assemble_unchecked_but_domains_present (CRG.init 156250000)
    { variant := "cle-215+", sysClkFreqHz := 156250000,
      withEthernet := true, withEtherbone := false,
      ethIp := "192.168.1.50", remoteIp := none, ethDynamicIp := false,
      withLedChaser := true, integratedMainRamSize := 0 }).2
    Peripheral.memory (by decide) "sys4x_dqs" (by decide)

/-- C4 counterexample: requesting Etherbone on the cle-101 variant (the spec's
scenario of a variant lacking a transceiver resource group) does not fail
with `UnsupportedFeatureForVariant`: construction succeeds, clock derivation
(the CRG) happens first — before any network work — and the PHY is
instantiated anyway, the target adding its own SFP pin extension for every
variant. -/
theorem no_variant_check_counterexample :
    BaseSoC.runInit
        { variant := "cle-101", sysClkFreqHz := 156250000,
          withEthernet := false, withEtherbone := true,
          ethIp := "192.168.1.50", remoteIp := none, ethDynamicIp := false,
          withLedChaser := true, integratedMainRamSize := 0 }
      = Except.ok
          [SoCEvent.crgCreated, SoCEvent.socCoreInit, SoCEvent.memoryAdded,
           SoCEvent.sfpIoAdded, SoCEvent.ethPhyAdded,
           SoCEvent.etherboneAdded false, SoCEvent.ledsAdded]
    ∧ (BaseSoC.initTrace -- clock derivation is the first event of the run
        { variant := "cle-101", sysClkFreqHz := 156250000,
          withEthernet := false, withEtherbone := true,
          ethIp := "192.168.1.50", remoteIp := none, ethDynamicIp := false,
          withLedChaser := true, integratedMainRamSize := 0 }).head?
      = some SoCEvent.crgCreated := by
  refine ⟨by rfl, by decide⟩

/-- C4 amended: for every configuration and every variant string, BaseSoC
construction never fails (no variant capability gate exists), clock
derivation always happens first, and whenever a network feature is requested
the target itself adds the SFP pin extension and instantiates the PHY,
regardless of variant. -/
theorem network_no_variant_gate (cfg : SoCConfig) :
    BaseSoC.runInit cfg = Except.ok (BaseSoC.initTrace cfg)
    ∧ (BaseSoC.initTrace cfg).head? = some SoCEvent.crgCreated
    ∧ ((cfg.withEthernet || cfg.withEtherbone) = true →
        SoCEvent.sfpIoAdded ∈ BaseSoC.initTrace cfg
        ∧ SoCEvent.ethPhyAdded ∈ BaseSoC.initTrace cfg) := by
  refine ⟨rfl, by simp [BaseSoC.initTrace], ?_⟩
  intro h
  constructor <;> simp [BaseSoC.initTrace, h]

/-- C4 amended witness: with Ethernet requested on the cle-215 variant, the
SFP extension is added and the PHY instantiated. -/
theorem network_no_variant_gate_witness :
    SoCEvent.sfpIoAdded ∈ BaseSoC.initTrace
        { variant := "cle-215", sysClkFreqHz := 156250000,
          withEthernet := true, withEtherbone := false,
          ethIp := "192.168.1.50", remoteIp := none, ethDynamicIp := false,
          withLedChaser := true, integratedMainRamSize := 0 }
    ∧ SoCEvent.ethPhyAdded ∈ BaseSoC.initTrace
        { variant := "cle-215", sysClkFreqHz := 156250000,
          withEthernet := true, withEtherbone := false,
          ethIp := "192.168.1.50", remoteIp := none, ethDynamicIp := false,
          withLedChaser := true, integratedMainRamSize := 0 } :=
  (network_no_variant_gate
    { variant := "cle-215", sysClkFreqHz := 156250000,
      withEthernet := true, withEtherbone := false,
      ethIp := "192.168.1.50", remoteIp := none, ethDynamicIp := false,
      withLedChaser := true, integratedMainRamSize := 0 }).2.2 (by decide)

/-- C6 counterexample: with the build flag unset and the load flag set, main
still attempts the load, accessing the bitstream artifact (the "sram"
bitstream filename from `builder.get_bitstream_filename`): nothing rejects
the invocation. -/
theorem load_without_build_counterexample :
    mainActions { build := false, load := true, flash := false }
      = [MainAction.loadBitstream "sram"]
    ∧ MainAction.loadBitstream "sram" ∈
        mainActions { build := false, load := true, flash := false }
    ∧ MainAction.builderBuild ∉
        mainActions { build := false, load := true, flash := false } := by
  refine ⟨by decide, by decide, by decide⟩

/-- C6 amended: each terminal action of main is attempted iff its own flag is
set; in particular load and flash proceed whether or not a build was
requested, with no rejection path — load's occurrence is unchanged by
flipping the build flag. -/
theorem main_actions_flag_guarded (a : MainArgs) :
    (MainAction.builderBuild ∈ mainActions a ↔ a.build = true)
    ∧ (MainAction.loadBitstream "sram" ∈ mainActions a ↔ a.load = true)
    ∧ (MainAction.flashBitstream "flash" ∈ mainActions a ↔ a.flash = true)
    ∧ (MainAction.loadBitstream "sram" ∈
          mainActions { a with build := false } ↔
        MainAction.loadBitstream "sram" ∈
          mainActions { a with build := true }) := by
  rcases a with ⟨b, l, fl⟩
  rcases b <;> rcases l <;> rcases fl <;> refine ⟨?_, ?_, ?_, ?_⟩ <;> decide

end AcornMini
